import Mathlib

/-!
Shallow embedding of `src/sentry/audit_log/services/log/impl.py` and
`src/sentry/notifications/notifications/strategies/role_based_recipient_strategy.py`.

The database is modelled explicitly: tables are lists of rows, and the reply of
the database to each `save()` attempt of `record_audit_log` is an oracle list
consumed one entry per attempt.  Python truthiness (`if x:` with `x` an
optional integer, string or dict) is modelled by explicit `truthy*` helpers,
since `None`, `0`, `""` and `{}` are all falsy in Python.
-/

/-- `AuditLogEvent` (declared in `sentry.audit_log.services.log`, outside the
two source files; its fields are modelled from how `impl.py` uses them:
`organization_id`, `actor_user_id`, `target_user_id`, plus the remaining
payload fields collapsed into `event_id`, `target_object_id` and `data`). -/
structure AuditLogEvent where
  organization_id : Nat
  event_id : Nat
  actor_user_id : Option Nat
  target_user_id : Option Nat
  target_object_id : Option Nat
  data : List (String × String)
deriving DecidableEq

/-- A row of the `AuditLogEntry` table, with the columns that
`DatabaseBackedLogService.find_last_log` filters on. -/
structure AuditLogEntry where
  organization_id : Nat
  target_object : Option Nat
  event : Nat
  data : List (String × String)
deriving DecidableEq

/-- The database's reply to one `entry.save()` call inside
`record_audit_log`: success, or an `IntegrityError` whose message does or
does not contain `"auth_user"` (the source inspects `str(e)` for that
substring). -/
inductive SaveResult where
  | ok
  | integrityError (mentionsAuthUser : Bool)
deriving DecidableEq

/-- Observable outcome of `DatabaseBackedLogService.record_audit_log`:
the event whose entry was saved, a propagated `IntegrityError` (tagged with
whether its message mentions the user table), or exhaustion of the reply
oracle (the call is still retrying after all supplied replies). -/
inductive RecordOutcome where
  | success (saved : AuditLogEvent)
  | raised (mentionsAuthUser : Bool)
  | outOfResponses (pending : AuditLogEvent)
deriving DecidableEq

/-- Python `if event.actor_user_id: event.actor_user_id = None` — the field is
cleared only when truthy (`None` and `0` are falsy and left unchanged). -/
def nullIfTruthy : Option Nat → Option Nat
  | some (n + 1) => none
  | x => x

/-- The mutation performed by the `IntegrityError` handler of
`record_audit_log`: both user references are conditionally nulled. -/
def nullUserRefs (event : AuditLogEvent) : AuditLogEvent :=
  { event with
    actor_user_id := nullIfTruthy event.actor_user_id
    target_user_id := nullIfTruthy event.target_user_id }

/-- `DatabaseBackedLogService.record_audit_log`.  `responses` is the oracle of
database replies, one per `entry.save()` attempt.  On an `IntegrityError`
whose message contains `"auth_user"` the source nulls
`event.actor_user_id` / `event.target_user_id` and calls
`self.record_audit_log(event=event)` recursively; any other
`IntegrityError` is re-raised. -/
def record_audit_log (event : AuditLogEvent) : List SaveResult → RecordOutcome
  | [] => .outOfResponses event
  | .ok :: _ => .success event
  | .integrityError true :: rest => record_audit_log (nullUserRefs event) rest
  | .integrityError false :: _ => .raised false

/-- A row of the `UserIP` table (columns touched by `record_user_ip`). -/
structure UserIPRow where
  user_id : Nat
  ip_address : String
  last_seen : Int
  country_code : Option String
  region_code : Option String
deriving DecidableEq

/-- A row of the `User` table (the columns `record_user_ip` filters on and
updates).  Timestamps are integer seconds. -/
structure UserRow where
  id : Nat
  last_active : Int
deriving DecidableEq

/-- `UserIpEvent` (declared outside the source files; fields modelled from
their use in `record_user_ip`). -/
structure UserIpEvent where
  user_id : Nat
  ip_address : String
  last_seen : Int
  country_code : Option String
  region_code : Option String
deriving DecidableEq

/-- `UserIP.objects.create_or_update(user_id=..., ip_address=..., values=...)`:
upsert keyed on `(user_id, ip_address)`, setting `last_seen`,
`country_code` and `region_code`. -/
def userip_create_or_update (table : List UserIPRow) (e : UserIpEvent) :
    List UserIPRow :=
  if table.any (fun r => r.user_id == e.user_id && r.ip_address == e.ip_address) then
    table.map (fun r =>
      if r.user_id == e.user_id && r.ip_address == e.ip_address then
        { r with
          last_seen := e.last_seen
          country_code := e.country_code
          region_code := e.region_code }
      else r)
  else
    table ++ [⟨e.user_id, e.ip_address, e.last_seen, e.country_code, e.region_code⟩]

/-- The per-row effect of
`User.objects.filter(id=event.user_id, last_active__lt=event.last_seen - timedelta(minutes=1)).update(last_active=event.last_seen)`. -/
def user_update_last_active (e : UserIpEvent) (u : UserRow) : UserRow :=
  if u.id == e.user_id && decide (u.last_active < e.last_seen - 60) then
    { u with last_active := e.last_seen }
  else u

/-- `DatabaseBackedLogService.record_user_ip`: upsert the `UserIP` row, then
conditionally bump `last_active` on the `User` table. -/
def record_user_ip (users : List UserRow) (userips : List UserIPRow)
    (e : UserIpEvent) : List UserRow × List UserIPRow :=
  (users.map (user_update_last_active e), userip_create_or_update userips e)

/-- Python truthiness of the optional `data` dict argument of
`find_last_log`: `None` and `{}` are falsy. -/
def truthyData : Option (List (String × String)) → Bool
  | none => false
  | some [] => false
  | some (_ :: _) => true

/-- `DatabaseBackedLogService.find_last_log`: filter the `AuditLogEntry` table
by organization, target object and event code, additionally by `data` when
that argument is truthy, and take the last matching row.  (The source then
converts the row with `as_event`, a model method outside these files; the
row itself is returned here.) -/
def find_last_log (table : List AuditLogEntry) (organization_id : Nat)
    (target_object_id : Option Nat) (event : Nat)
    (data : Option (List (String × String))) : Option AuditLogEntry :=
  let last_entry_q := table.filter (fun en =>
    en.organization_id == organization_id
      && en.target_object == target_object_id
      && en.event == event)
  let last_entry_q :=
    if truthyData data then
      last_entry_q.filter (fun en => en.data == data.getD [])
    else last_entry_q
  last_entry_q.getLast?

/-- `OutboxScope` values used by `impl.py`. -/
inductive OutboxScope where
  | AUDIT_LOG_SCOPE
  | USER_IP_SCOPE
deriving DecidableEq

/-- `OutboxCategory` values used by `impl.py`. -/
inductive OutboxCategory where
  | AUDIT_LOG_EVENT
  | USER_IP_EVENT
deriving DecidableEq

/-- `event.__dict__` — the raw fields of the event, as a mapping. -/
inductive OutboxPayload where
  | auditLog (e : AuditLogEvent)
  | userIp (e : UserIpEvent)
deriving DecidableEq

/-- A `RegionOutbox` message as constructed by `OutboxBackedLogService`. -/
structure RegionOutbox where
  shard_scope : OutboxScope
  shard_identifier : Nat
  category : OutboxCategory
  object_identifier : Nat
  payload : OutboxPayload
deriving DecidableEq

/-- The region-local state seen by `OutboxBackedLogService`: the outbox
queue, the local audit-log table (which this service never writes), and the
counter behind `RegionOutbox.next_object_identifier()`. -/
structure OutboxState where
  outboxes : List RegionOutbox
  audit_log_entries : List AuditLogEntry
  next_object_identifier : Nat
deriving DecidableEq

/-- `OutboxBackedLogService.record_audit_log`: build one `RegionOutbox` with
the audit-log scope/category, the event's organization id as shard
identifier, a fresh object identifier and the event's fields as payload,
and save it. -/
def outbox_record_audit_log (s : OutboxState) (event : AuditLogEvent) :
    OutboxState :=
  { s with
    outboxes := s.outboxes ++
      [{ shard_scope := .AUDIT_LOG_SCOPE
         shard_identifier := event.organization_id
         category := .AUDIT_LOG_EVENT
         object_identifier := s.next_object_identifier
         payload := .auditLog event }]
    next_object_identifier := s.next_object_identifier + 1 }

/-- `OutboxBackedLogService.record_user_ip`. -/
def outbox_record_user_ip (s : OutboxState) (event : UserIpEvent) :
    OutboxState :=
  { s with
    outboxes := s.outboxes ++
      [{ shard_scope := .USER_IP_SCOPE
         shard_identifier := event.user_id
         category := .USER_IP_EVENT
         object_identifier := event.user_id
         payload := .userIp event }]
    }

/-- `OutboxBackedLogService.find_last_log`: `return None`. -/
def outbox_find_last_log (organization_id : Nat)
    (target_object_id : Option Nat) (event : Nat)
    (data : Option (List (String × String))) : Option AuditLogEntry :=
  none

/-- Python truthiness of an optional string (`None` and `""` are falsy):
used for `self.scope` in `RoleBasedRecipientStrategy`. -/
def truthyStr : Option String → Bool
  | none => false
  | some s => !(s == "")

/-- `OrganizationRole` (from `sentry.roles.manager`, outside the source
files): modelled with the members the strategy uses, an `id`, a `name` and
the scopes backing `has_scope`. -/
structure OrganizationRole where
  id : String
  name : String
  scopes : List String
deriving DecidableEq

/-- `OrganizationRole.has_scope` (external to the source files): whether the
role holds the scope. -/
def OrganizationRole.has_scope (r : OrganizationRole) (scope : String) : Bool :=
  r.scopes.contains scope

/-- An `OrganizationMember` row, with the columns the strategy touches. -/
structure OrganizationMember where
  user_id : Option Nat
  organization_id : Nat
  role : String
deriving DecidableEq

/-- `ActorType` (from `sentry.types.actor`). -/
inductive ActorType where
  | USER
  | TEAM
deriving DecidableEq

/-- An `Actor`.  `Actor.from_object` maps an `RpcUser` argument to an actor of
type `USER` and is the identity on actors, so `get_member`'s argument is
modelled directly as the resulting actor. -/
structure Actor where
  actor_type : ActorType
  id : Nat
deriving DecidableEq

/-- `RoleBasedRecipientStrategy.member_by_user_id` is declared as a class
attribute (`member_by_user_id: MutableMapping[int, OrganizationMember] = \x7b\x7d`)
and is never rebound in `__init__`; `self.member_by_user_id[...] = ...`
mutates that single class-level dict in place.  It is therefore one piece
of state shared by every strategy instance, modelled as this structure and
threaded through the calls of all instances. -/
structure StrategyClassState where
  member_by_user_id : List (Nat × OrganizationMember)
deriving DecidableEq

/-- Dict read `self.member_by_user_id[user_id]` / containment test. -/
def StrategyClassState.lookup (c : StrategyClassState) (uid : Nat) :
    Option OrganizationMember :=
  (c.member_by_user_id.find? (fun p => p.1 == uid)).map (fun p => p.2)

/-- One `RoleBasedRecipientStrategy` instance: `__init__` stores the
organization; `role` and `scope` are per-subclass constants. -/
structure RoleBasedRecipientStrategy where
  organization_id : Nat
  role : Option OrganizationRole
  scope : Option String
deriving DecidableEq

/-- Result of `get_member`: the member, or a raised
`OrganizationMember.DoesNotExist`. -/
inductive GetMemberResult where
  | ok (m : OrganizationMember)
  | doesNotExist
deriving DecidableEq

/-- Full observable outcome of one `get_member` call: the result, the
class-level cache afterwards, and whether an
`OrganizationMember.objects.get` query was issued. -/
structure GetMemberOutcome where
  result : GetMemberResult
  cache : StrategyClassState
  queried : Bool
deriving DecidableEq

/-- `RoleBasedRecipientStrategy.get_member`.  `db` is the
`OrganizationMember` table; the query
`OrganizationMember.objects.get(user_id=..., organization=self.organization)`
returns the first matching row or raises `DoesNotExist`. -/
def get_member (self : RoleBasedRecipientStrategy) (cls : StrategyClassState)
    (db : List OrganizationMember) (user : Actor) : GetMemberOutcome :=
  if user.actor_type != ActorType.USER then
    { result := .doesNotExist, cache := cls, queried := false }
  else
    let user_id := user.id
    match cls.lookup user_id with
    | some m => { result := .ok m, cache := cls, queried := false }
    | none =>
      match db.find? (fun m =>
          m.user_id == some user_id && m.organization_id == self.organization_id) with
      | some m =>
        { result := .ok m
          cache := ⟨(user_id, m) :: cls.member_by_user_id⟩
          queried := true }
      | none => { result := .doesNotExist, cache := cls, queried := true }

/-- `RoleBasedRecipientStrategy.set_member_in_cache`: stores the member under
its `user_id` when that id is not `None`. -/
def set_member_in_cache (cls : StrategyClassState) (member : OrganizationMember) :
    StrategyClassState :=
  match member.user_id with
  | some uid => ⟨(uid, member) :: cls.member_by_user_id⟩
  | none => cls

/-- `roles.get_all()` filtered by `has_scope`, mapped to ids — the
`valid_roles` list of the scope branch. -/
def scopeRoleIds (allRoles : List OrganizationRole) (scope : String) :
    List String :=
  (allRoles.filter (fun r => r.has_scope scope)).map (fun r => r.id)

/-- `RoleBasedRecipientStrategy.determine_member_recipients`.  `allRoles`
models the global `roles.get_all()` registry and `contactable` the result
of `OrganizationMember.objects.get_contactable_members_for_org`, both
external to the source files. -/
def determine_member_recipients (self : RoleBasedRecipientStrategy)
    (allRoles : List OrganizationRole) (contactable : List OrganizationMember) :
    List OrganizationMember :=
  let members := contactable
  if !truthyStr self.scope && self.role.isNone then
    members
  else
    let valid_roles : List String :=
      if self.role.isSome && !truthyStr self.scope then
        match self.role with
        | some r => [r.id]
        | none => []
      else if truthyStr self.scope then
        scopeRoleIds allRoles (self.scope.getD "")
      else []
    members.filter (fun m => valid_roles.contains m.role)

/-- `RoleBasedRecipientStrategy.determine_recipients`: resolve the member
recipients, store each in the class-level cache, and pass the truthy
member user ids to `user_service.get_many_by_id` (external; the ids handed
to it are returned). -/
def determine_recipients (self : RoleBasedRecipientStrategy)
    (allRoles : List OrganizationRole) (contactable : List OrganizationMember)
    (cls : StrategyClassState) : List Nat × StrategyClassState :=
  let members := determine_member_recipients self allRoles contactable
  let cls := members.foldl set_member_in_cache cls
  ((members.filterMap (fun m =>
      match m.user_id with
      | some (uid + 1) => some (uid + 1)
      | _ => none)), cls)

/-- `RoleBasedRecipientStrategy.build_notification_footer_from_settings_url`. -/
def build_notification_footer_from_settings_url
    (self : RoleBasedRecipientStrategy) (settings_url : String) : String :=
  if truthyStr self.scope && self.role.isNone then
    "You are receiving this notification because you have the scope "
      ++ self.scope.getD "" ++ " | " ++ settings_url
  else
    let role_name :=
      match self.role with
      | some r => r.name
      | none => "Member"
    "You are receiving this notification because you're listed as an organization "
      ++ role_name ++ " | " ++ settings_url

/-- The scope-based footer wording, as the spec describes it. -/
def scope_footer (scope settings_url : String) : String :=
  "You are receiving this notification because you have the scope "
    ++ scope ++ " | " ++ settings_url

/-- The role-based footer wording, as the spec describes it. -/
def role_footer (role_name settings_url : String) : String :=
  "You are receiving this notification because you're listed as an organization "
    ++ role_name ++ " | " ++ settings_url

/-! ## Helper lemmas -/

theorem nullIfTruthy_eq_none (x : Option Nat) (h : x ≠ some 0) :
    nullIfTruthy x = none := by
  cases x with
  | none => rfl
  | some k =>
    cases k with
    | zero => exact absurd rfl h
    | succ n => rfl

theorem contains_scopeRoleIds (rs : List OrganizationRole) (sc x : String) :
    (scopeRoleIds rs sc).contains x
      = rs.any (fun r => r.has_scope sc && x == r.id) := by
  induction rs with
  | nil => rfl
  | cons r rs ih =>
    by_cases h : r.has_scope sc = true
    · simp only [scopeRoleIds, List.filter_cons, h, if_pos, List.map_cons,
        List.contains_cons, List.any_cons, Bool.true_and] at ih ⊢
      rw [ih]
    · simp only [scopeRoleIds, List.filter_cons, h, List.any_cons,
        Bool.false_and, Bool.false_or, if_neg, Bool.not_eq_true] at ih ⊢
      exact ih

theorem determine_member_recipients_scope_case
    (self : RoleBasedRecipientStrategy) (allRoles : List OrganizationRole)
    (contactable : List OrganizationMember) (h : truthyStr self.scope = true) :
    determine_member_recipients self allRoles contactable
      = contactable.filter (fun m =>
          allRoles.any (fun r => r.has_scope (self.scope.getD "") && m.role == r.id)) := by
  unfold determine_member_recipients
  simp only [h, Bool.not_true, Bool.false_and, Bool.and_false, if_false,
    Bool.false_eq_true, if_true]
  have hpred : (fun m : OrganizationMember =>
      (scopeRoleIds allRoles (self.scope.getD "")).contains m.role)
      = (fun m : OrganizationMember =>
          allRoles.any (fun r => r.has_scope (self.scope.getD "") && m.role == r.id)) := by
    funext m
    exact contains_scopeRoleIds allRoles (self.scope.getD "") m.role
  rw [hpred]

/-! ## Claim theorems: audit-log service -/

/-- Concrete event used to exhibit the retry behaviour of
`record_audit_log` on repeated user-table integrity errors. -/
def C1_e : AuditLogEvent :=
  { organization_id := 1, event_id := 1, actor_user_id := some 7,
    target_user_id := none, target_object_id := none, data := [] }

/-- C1 counterexample: if the second insert attempt (the retry after nulling)
also fails with a user-table `IntegrityError`, the error does not propagate
to the caller; the handler recurses again — after the two replies the call
is still pending a further attempt, and a third reply of success makes it
succeed.  This contradicts the claim that a second integrity failure
propagates rather than triggering further retries. -/
theorem record_audit_log_third_attempt :
    record_audit_log C1_e [.integrityError true, .integrityError true]
      = .outOfResponses { C1_e with actor_user_id := none }
    ∧ record_audit_log C1_e [.integrityError true, .integrityError true, .ok]
      = .success { C1_e with actor_user_id := none } := by
  exact ⟨rfl, rfl⟩

/-- C1 (amended): after a user-table foreign-key violation the handler nulls
the actor/target user references and attempts the insert once more; if that
second attempt fails with an integrity error not referencing the user
table, the error propagates to the caller; but a second attempt failing
with another user-table integrity error triggers a further retry (the
handler recurses on every user-table integrity error, with no retry
bound). -/
theorem record_audit_log_retry_spec (e : AuditLogEvent) (rest : List SaveResult) :
    record_audit_log e (.integrityError true :: .ok :: rest)
      = .success (nullUserRefs e)
    ∧ record_audit_log e (.integrityError true :: .integrityError false :: rest)
      = .raised false
    ∧ record_audit_log e (.integrityError true :: .integrityError true :: rest)
      = record_audit_log (nullUserRefs (nullUserRefs e)) rest := by
  exact ⟨rfl, rfl, rfl⟩

/-- C2: when the first insert raises a user-table foreign-key
`IntegrityError` (the referenced user was deleted) and the retry succeeds,
`record_audit_log` completes without raising and the saved entry has both
user references nulled; an `IntegrityError` not mentioning the user table
is re-raised unchanged.  (The hypotheses exclude the literal user id `0`,
which Python's truthiness test `if event.actor_user_id:` would leave in
place; database ids are positive.) -/
theorem record_audit_log_deleted_user_spec (e : AuditLogEvent)
    (rest : List SaveResult) (ha : e.actor_user_id ≠ some 0)
    (ht : e.target_user_id ≠ some 0) :
    record_audit_log e [.integrityError true, .ok]
      = .success { e with actor_user_id := none, target_user_id := none }
    ∧ record_audit_log e (.integrityError false :: rest) = .raised false := by
  constructor
  · show RecordOutcome.success (nullUserRefs e) = _
    unfold nullUserRefs
    rw [nullIfTruthy_eq_none e.actor_user_id ha,
      nullIfTruthy_eq_none e.target_user_id ht]
  · rfl

/-- Concrete event for the C2 witness. -/
def C2_e : AuditLogEvent :=
  { organization_id := 1, event_id := 2, actor_user_id := some 7,
    target_user_id := some 8, target_object_id := some 3, data := [] }

/-- Witness for C2 at a concrete event with positive user references. -/
theorem record_audit_log_deleted_user_witness :
    record_audit_log C2_e [.integrityError true, .ok]
      = .success { C2_e with actor_user_id := none, target_user_id := none }
    ∧ record_audit_log C2_e [.integrityError false] = .raised false :=
  record_audit_log_deleted_user_spec C2_e [] (by decide) (by decide)

/-- C7: `OutboxBackedLogService.find_last_log` returns `None` for every
combination of arguments. -/
theorem outbox_find_last_log_none (organization_id : Nat)
    (target_object_id : Option Nat) (event : Nat)
    (data : Option (List (String × String))) :
    outbox_find_last_log organization_id target_object_id event data = none :=
  rfl

/-- C8: `OutboxBackedLogService.record_audit_log` leaves the local audit-log
table untouched and appends exactly one `RegionOutbox` message with the
audit-log shard scope, the event's organization id as shard identifier,
the audit-log category, a fresh object identifier and the event's raw
fields as payload. -/
theorem outbox_record_audit_log_spec (s : OutboxState) (e : AuditLogEvent) :
    (outbox_record_audit_log s e).audit_log_entries = s.audit_log_entries
    ∧ (outbox_record_audit_log s e).outboxes
      = s.outboxes ++
        [{ shard_scope := .AUDIT_LOG_SCOPE
           shard_identifier := e.organization_id
           category := .AUDIT_LOG_EVENT
           object_identifier := s.next_object_identifier
           payload := .auditLog e }] :=
  ⟨rfl, rfl⟩

/-- C9: `DatabaseBackedLogService.find_last_log` treats an empty `data`
mapping like an absent one — the query then filters only by organization,
target object and event — and applies the `data` filter exactly when the
mapping is non-empty. -/
theorem find_last_log_data_truthiness_spec (table : List AuditLogEntry)
    (org : Nat) (tobj : Option Nat) (ev : Nat) (kv : String × String)
    (ds : List (String × String)) :
    find_last_log table org tobj ev (some []) = find_last_log table org tobj ev none
    ∧ find_last_log table org tobj ev none
      = (table.filter (fun en =>
          en.organization_id == org && en.target_object == tobj
            && en.event == ev)).getLast?
    ∧ find_last_log table org tobj ev (some (kv :: ds))
      = ((table.filter (fun en =>
          en.organization_id == org && en.target_object == tobj
            && en.event == ev)).filter
            (fun en => en.data == kv :: ds)).getLast? :=
  ⟨rfl, rfl, rfl⟩

/-- C3: `record_user_ip` applies the conditional `last_active` bump to the
user table row by row; for the row matching the event's user, the row is
changed exactly when the stored `last_active` is more than one minute (60
seconds) older than the event's `last_seen`, in which case it becomes
`last_seen`; otherwise the row is left untouched. -/
theorem record_user_ip_last_active_spec (e : UserIpEvent) (u : UserRow)
    (users : List UserRow) (userips : List UserIPRow) (hid : u.id = e.user_id) :
    (record_user_ip users userips e).1 = users.map (user_update_last_active e)
    ∧ (user_update_last_active e u ≠ u ↔ e.last_seen - u.last_active > 60)
    ∧ (e.last_seen - u.last_active > 60 →
        (user_update_last_active e u).last_active = e.last_seen)
    ∧ (¬ e.last_seen - u.last_active > 60 → user_update_last_active e u = u) := by
  have hid' : (u.id == e.user_id) = true := by simp [hid]
  by_cases hlt : u.last_active < e.last_seen - 60
  · have harith : e.last_seen - u.last_active > 60 := by omega
    have hupd : user_update_last_active e u = { u with last_active := e.last_seen } := by
      unfold user_update_last_active
      rw [hid']
      simp [hlt]
    refine ⟨rfl, ?_, ?_, ?_⟩
    · constructor
      · intro _
        exact harith
      · intro _ hc
        rw [hupd] at hc
        have : e.last_seen = u.last_active := congrArg UserRow.last_active hc
        omega
    · intro _
      rw [hupd]
    · intro hc
      exact absurd harith hc
  · have harith : ¬ e.last_seen - u.last_active > 60 := by omega
    have hupd : user_update_last_active e u = u := by
      unfold user_update_last_active
      rw [hid']
      simp [hlt]
    refine ⟨rfl, ?_, ?_, ?_⟩
    · constructor
      · intro hne
        exact absurd hupd hne
      · intro hgt
        exact absurd hgt harith
    · intro hgt
      exact absurd hgt harith
    · intro _
      exact hupd

/-- Concrete event for the C3 witness. -/
def C3_e : UserIpEvent :=
  { user_id := 5, ip_address := "127.0.0.1", last_seen := 100,
    country_code := none, region_code := none }

/-- Concrete user row for the C3 witness. -/
def C3_u : UserRow := { id := 5, last_active := 0 }

/-- Witness for C3 at a concrete event and user row. -/
theorem record_user_ip_last_active_witness :
    (record_user_ip [C3_u] [] C3_e).1 = [C3_u].map (user_update_last_active C3_e)
    ∧ (user_update_last_active C3_e C3_u ≠ C3_u ↔
        C3_e.last_seen - C3_u.last_active > 60)
    ∧ (C3_e.last_seen - C3_u.last_active > 60 →
        (user_update_last_active C3_e C3_u).last_active = C3_e.last_seen)
    ∧ (¬ C3_e.last_seen - C3_u.last_active > 60 →
        user_update_last_active C3_e C3_u = C3_u) :=
  record_user_ip_last_active_spec C3_e C3_u [C3_u] [] rfl

/-! ## Claim theorems: recipient strategy -/

/-- C4: `determine_member_recipients` returns, when the scope is set (truthy;
whether or not a role is also set), the contactable members whose role is
any role holding that scope; when only a role is set, exactly the
contactable members holding that role; and when neither is set, all
contactable members. -/
theorem determine_member_recipients_spec (self : RoleBasedRecipientStrategy)
    (allRoles : List OrganizationRole) (contactable : List OrganizationMember) :
    determine_member_recipients self allRoles contactable =
      if truthyStr self.scope then
        contactable.filter (fun m =>
          allRoles.any (fun r => r.has_scope (self.scope.getD "") && m.role == r.id))
      else
        match self.role with
        | some r => contactable.filter (fun m => m.role == r.id)
        | none => contactable := by
  by_cases hs : truthyStr self.scope = true
  · rw [if_pos hs]
    exact determine_member_recipients_scope_case self allRoles contactable hs
  · rw [Bool.not_eq_true] at hs
    rw [if_neg (by simp [hs])]
    cases hr : self.role with
    | none =>
      unfold determine_member_recipients
      simp [hs, hr]
    | some r =>
      unfold determine_member_recipients
      simp only [hs, hr, Bool.not_false, Option.isNone_some, Bool.and_false,
        Bool.false_eq_true, if_false, Option.isSome_some, Bool.and_true,
        if_true]
      have hpred : (fun m : OrganizationMember => List.contains [r.id] m.role)
          = (fun m : OrganizationMember => m.role == r.id) := by
        funext m
        cases h : m.role == r.id <;> simp [List.contains, List.elem, h]
      rw [hpred]

/-- Member of organization 1 for user 5, used to exhibit cache sharing. -/
def C5_memberA : OrganizationMember :=
  { user_id := some 5, organization_id := 1, role := "member" }

/-- Member of organization 2 for the same user 5. -/
def C5_memberB : OrganizationMember :=
  { user_id := some 5, organization_id := 2, role := "admin" }

/-- `OrganizationMember` table holding user 5's memberships in both
organizations. -/
def C5_db : List OrganizationMember := [C5_memberA, C5_memberB]

/-- Strategy instance for organization 1. -/
def C5_strat1 : RoleBasedRecipientStrategy :=
  { organization_id := 1, role := none, scope := none }

/-- Strategy instance for organization 2. -/
def C5_strat2 : RoleBasedRecipientStrategy :=
  { organization_id := 2, role := none, scope := none }

/-- The user actor for user 5. -/
def C5_actor : Actor := { actor_type := .USER, id := 5 }

/-- C5: the member cache is not instance-scoped.  `member_by_user_id` is a
class attribute mutated in place, so a member cached by `get_member` on
the organization-1 instance is visible from the organization-2 instance:
the second instance's `get_member` issues no lookup query and even returns
the organization-1 membership, although it queries with
`organization=self.organization`. -/
theorem get_member_cache_shared_across_instances :
    (get_member C5_strat1 ⟨[]⟩ C5_db C5_actor).queried = true
    ∧ (get_member C5_strat1 ⟨[]⟩ C5_db C5_actor).result = .ok C5_memberA
    ∧ (get_member C5_strat2 (get_member C5_strat1 ⟨[]⟩ C5_db C5_actor).cache
        C5_db C5_actor).queried = false
    ∧ (get_member C5_strat2 (get_member C5_strat1 ⟨[]⟩ C5_db C5_actor).cache
        C5_db C5_actor).result = .ok C5_memberA
    ∧ C5_memberA.organization_id ≠ C5_strat2.organization_id := by
  decide

/-- C10: for an argument resolving to a non-user actor, `get_member` raises
`OrganizationMember.DoesNotExist` without touching the cache and without
issuing a member lookup query. -/
theorem get_member_non_user_actor (self : RoleBasedRecipientStrategy)
    (cls : StrategyClassState) (db : List OrganizationMember) (user : Actor)
    (h : user.actor_type ≠ ActorType.USER) :
    get_member self cls db user
      = { result := .doesNotExist, cache := cls, queried := false } := by
  unfold get_member
  rw [if_pos]
  simpa [bne_iff_ne] using h

/-- Witness for C10: a team actor against a fresh cache and a non-empty
member table. -/
theorem get_member_non_user_actor_witness :
    get_member ⟨1, none, none⟩ ⟨[]⟩ [⟨some 9, 1, "member"⟩] ⟨.TEAM, 9⟩
      = { result := .doesNotExist, cache := ⟨[]⟩, queried := false } :=
  get_member_non_user_actor ⟨1, none, none⟩ ⟨[]⟩ [⟨some 9, 1, "member"⟩]
    ⟨.TEAM, 9⟩ (by decide)

/-- Role `admin`, holding only `org:write`. -/
def C6_admin : OrganizationRole :=
  { id := "admin", name := "Admin", scopes := ["org:write"] }

/-- Role `owner`, holding `org:write` and `org:admin`. -/
def C6_owner : OrganizationRole :=
  { id := "owner", name := "Owner", scopes := ["org:write", "org:admin"] }

/-- The role registry `roles.get_all()` for the C6 scenario. -/
def C6_roles : List OrganizationRole := [C6_admin, C6_owner]

/-- A contactable member holding the `admin` role. -/
def C6_mAdmin : OrganizationMember :=
  { user_id := some 1, organization_id := 1, role := "admin" }

/-- A contactable member holding the `owner` role. -/
def C6_mOwner : OrganizationMember :=
  { user_id := some 2, organization_id := 1, role := "owner" }

/-- A strategy with both `scope` (`org:admin`) and `role` (`admin`) set. -/
def C6_strat : RoleBasedRecipientStrategy :=
  { organization_id := 1, role := some C6_admin, scope := some "org:admin" }

/-- C6 counterexample: with both scope and role set, the scope determines the
recipients (only the `owner` member, who holds `org:admin`, is selected —
not the `admin` member named by the role), yet the footer uses the
role-based wording, not the scope-based wording the claim requires. -/
theorem footer_not_scope_worded_when_scope_drives_selection :
    determine_member_recipients C6_strat C6_roles [C6_mAdmin, C6_mOwner]
      = [C6_mOwner]
    ∧ build_notification_footer_from_settings_url C6_strat "https://settings"
      = role_footer "Admin" "https://settings"
    ∧ build_notification_footer_from_settings_url C6_strat "https://settings"
      ≠ scope_footer "org:admin" "https://settings" := by
  refine ⟨by decide, by decide, by decide⟩

/-- C6 (amended): in every configuration, the footer uses the scope-based
wording exactly when the scope is set (truthy) and no role is set;
whenever a role is set — including when the scope is also set — the footer
uses the role-based wording with the role's name, and with neither set it
uses the role-based wording with "Member".  Additionally, whenever the
scope is set it is the scope that determines the recipients, so in the
both-set configuration the selection is scope-driven while the footer is
role-worded. -/
theorem footer_wording_spec (self : RoleBasedRecipientStrategy) (url : String)
    (allRoles : List OrganizationRole) (contactable : List OrganizationMember) :
    build_notification_footer_from_settings_url self url
      = (if truthyStr self.scope && self.role.isNone then
          scope_footer (self.scope.getD "") url
        else
          role_footer ((self.role.map OrganizationRole.name).getD "Member") url)
    ∧ (truthyStr self.scope = true →
        determine_member_recipients self allRoles contactable
          = contactable.filter (fun m =>
              allRoles.any (fun rr =>
                rr.has_scope (self.scope.getD "") && m.role == rr.id))) := by
  constructor
  · cases hr : self.role with
    | none =>
      cases hs : truthyStr self.scope with
      | false =>
        unfold build_notification_footer_from_settings_url scope_footer role_footer
        simp [hr, hs]
      | true =>
        unfold build_notification_footer_from_settings_url scope_footer role_footer
        simp [hr, hs]
    | some r =>
      unfold build_notification_footer_from_settings_url scope_footer role_footer
      simp [hr]
  · intro hs
    exact determine_member_recipients_scope_case self allRoles contactable hs

/-- Witness for C6 (amended) at the concrete both-set strategy: the footer is
the role wording with the role's name while the recipients are selected by
the scope (only the owner member holds `org:admin`). -/
theorem footer_wording_witness :
    build_notification_footer_from_settings_url C6_strat "https://settings"
      = role_footer "Admin" "https://settings"
    ∧ determine_member_recipients C6_strat C6_roles [C6_mAdmin, C6_mOwner]
      = [C6_mOwner] := by
  have h := footer_wording_spec C6_strat "https://settings" C6_roles
    [C6_mAdmin, C6_mOwner]
  exact ⟨h.1.trans (by decide), (h.2 (by decide)).trans (by decide)⟩
